import Mathlib

/-!
Verification development for the `roboat` client library (the `users` and
`friends` modules). The Rust source is shallowly embedded: each endpoint
function becomes a pure Lean function over an explicit session state and a
transport oracle; serde (de)serialization of the typed models becomes
explicit encoders/decoders over a small JSON value type. Parts of the
crate that live outside the two modules (the `Client` plumbing in the crate
root and `friends/request_types.rs`) are modelled from the specification
and marked as such in their doc comments.
-/

namespace Roboat

/-- A JSON value. Numbers are modelled as integers, which covers every field
    of the wire schemas in these modules (u64 / i64 / i32). -/
inductive Json where
  | null : Json
  | bool (b : Bool) : Json
  | num (n : Int) : Json
  | str (s : String) : Json
  | arr (elems : List Json) : Json
  | obj (fields : List (String × Json)) : Json

/-- Field lookup in a JSON object body: the first member whose key is one of
    the accepted `names` (the serde field name together with its alias, when
    one is declared). -/
def lookupField : List (String × Json) → List String → Option Json
  | [], _ => none
  | (k, v) :: rest, names => if k ∈ names then some v else lookupField rest names

/-- Deserialize a JSON string (serde `String`). -/
def Json.asStr : Json → Option String
  | .str s => some s
  | _ => none

/-- Deserialize a JSON boolean (serde `bool`). -/
def Json.asBool : Json → Option Bool
  | .bool b => some b
  | _ => none

/-- Deserialize a `u64`: a non-negative number below `2^64`. -/
def Json.asU64 : Json → Option Nat
  | .num (.ofNat m) => if m < 2 ^ 64 then some m else none
  | _ => none

/-- Deserialize an `i64`: a number in `[-2^63, 2^63)`
    (`.negSucc m` stands for `-(m+1)`, so the lower bound reads `m < 2^63`). -/
def Json.asI64 : Json → Option Int
  | .num (.ofNat m) => if m < 2 ^ 63 then some (.ofNat m) else none
  | .num (.negSucc m) => if m < 2 ^ 63 then some (.negSucc m) else none
  | _ => none

/-- Deserialize an `i32`: a number in `[-2^31, 2^31)`. -/
def Json.asI32 : Json → Option Int
  | .num (.ofNat m) => if m < 2 ^ 31 then some (.ofNat m) else none
  | .num (.negSucc m) => if m < 2 ^ 31 then some (.negSucc m) else none
  | _ => none

/-- Deserialize each element of a JSON array in order; any element failure
    fails the whole list (serde sequence semantics). -/
def mapMDecode (f : Json → Option α) : List Json → Option (List α)
  | [] => some []
  | j :: rest => do
    let a ← f j
    let as ← mapMDecode f rest
    some (a :: as)

/-- Deserialize a `Vec<String>`. -/
def Json.asStrList : Json → Option (List String)
  | .arr xs => mapMDecode Json.asStr xs
  | _ => none

/-- Required field of a struct: missing or ill-typed is a decode error. -/
def reqField (fs : List (String × Json)) (names : List String)
    (conv : Json → Option α) : Option α :=
  (lookupField fs names).bind conv

/-- Decode an optional (`Option<T>`) member value: a missing member or an
    explicit `null` decodes to `none`; a present member must convert. -/
def decodeOptJson (o : Option Json) (conv : Json → Option α) : Option (Option α) :=
  match o with
  | none => some none
  | some .null => some none
  | some j => (conv j).map some

/-- Optional (`Option<T>`) field of a struct. -/
def optField (fs : List (String × Json)) (names : List String)
    (conv : Json → Option α) : Option (Option α) :=
  decodeOptJson (lookupField fs names) conv

/-- Error taxonomy. Modelled from the spec: the crate root (`RoboatError`)
    is not among the given sources; the constructors follow the spec's
    error-handling design (missing authentication, network failure,
    authentication rejected, rate limited, unexpected status with its body,
    decode failure). -/
inductive RoboatError where
  | missingAuth : RoboatError
  | connectionFailed : RoboatError
  | authRejected : RoboatError
  | rateLimited : RoboatError
  | unexpectedStatus (status : Nat) (body : Json) : RoboatError
  | decodeFailure : RoboatError

/-- HTTP verb of an issued request. -/
inductive Method where
  | get : Method
  | post : Method

/-- An outgoing request as seen by the transport adapter: URL, verb, the
    cookie header when one is attached, and the JSON body when one is sent. -/
structure HttpRequest where
  method : Method
  url : String
  cookie : Option String
  body : Option Json

/-- Transport outcome: a raw response (status and JSON body) or a
    network-level failure. -/
inductive HttpResult where
  | response (status : Nat) (body : Json) : HttpResult
  | netError : HttpResult

/-- Basic information about the account of the Roblosecurity
    (`ClientUserInformation` in `users/mod.rs`; serde aliases
    `id`, `name`, `displayName`). -/
structure ClientUserInformation where
  user_id : Nat
  username : String
  display_name : String
deriving DecidableEq

/-- Session state. Modelled from the spec: the `Client` struct lives in the
    crate root, outside the given sources; per the spec it holds the
    authentication token and the lazily populated identity cache. -/
structure ClientState where
  roblosecurity : Option String
  user_information : Option ClientUserInformation
deriving DecidableEq

/-- The identity triple returned by user search (`User` in the crate root).
    Modelled from the spec: minimal identity triple of id, username and
    display name. -/
structure User where
  user_id : Nat
  username : String
  display_name : String
deriving DecidableEq

/-- The details of a user (`UserDetails` in `users/mod.rs`). -/
structure UserDetails where
  username : String
  display_name : String
  id : Nat
  description : String
  created_at : String
  is_terminated : Bool
  has_verified_badge : Bool
deriving DecidableEq

/-- The details of a user fetched by username
    (`UsernameUserDetails` in `users/mod.rs`). -/
structure UsernameUserDetails where
  requested_username : String
  username : String
  display_name : String
  id : Nat
  has_verified_badge : Bool
deriving DecidableEq

/-- Wire entry of the user-search response
    (`UserSearchUserInformationRaw` in `users/request_types.rs`,
    `rename_all = "camelCase"`). -/
structure UserSearchUserInformationRaw where
  id : Nat
  name : String
  has_verified_badge : Bool
  previous_usernames : List String
  display_name : String
deriving DecidableEq

/-- Wire shape of the user-search response
    (`UserSearchResponse` in `users/request_types.rs`). -/
structure UserSearchResponse where
  previous_page_cursor : Option String
  next_page_cursor : String
  data : List UserSearchUserInformationRaw
deriving DecidableEq

/-- Wire entry of the presence response
    (`UserPresenceRaw` in `users/request_types.rs`). -/
structure UserPresenceRaw where
  user_presence_type : Int
  last_location : Option String
  place_id : Option Nat
  root_place_id : Option Nat
  game_id : Option String
  universe_id : Option Nat
  user_id : Option Nat
  last_online : String
  invisible_mod_expiry : Option String
deriving DecidableEq

/-- The presence of a batch of users
    (`UserPresenceResponse` in `users/mod.rs`). -/
structure UserPresenceResponse where
  user_presences : List UserPresenceRaw
deriving DecidableEq

/-- Wire entry of the username-details response
    (`UsernameUserInformationRaw` in `users/request_types.rs`). -/
structure UsernameUserInformationRaw where
  requested_username : String
  has_verified_badge : Bool
  id : Nat
  name : String
  display_name : String
deriving DecidableEq

/-- Wire shape of the username-details response
    (`UsernameUserDetailsResponse` in `users/request_types.rs`). -/
structure UsernameUserDetailsResponse where
  data : List UsernameUserInformationRaw
deriving DecidableEq

/-- Model of a friend with presence information
    (`FriendsUserInformation` in `friends/mod.rs`; serde aliases on each
    renamed field). -/
structure FriendsUserInformation where
  user_id : Nat
  external_app_display_name : Option String
  username : String
  display_name : String
  is_online : Bool
  presence_type : Option Int
  is_deleted : Bool
  is_banned : Bool
  friend_frequent_score : Int
  friend_frequent_rank : Int
  has_verified_badge : Bool
  description : Option String
  created : String
deriving DecidableEq

/-- A friend request (`FriendRequest` in `friends/mod.rs`). -/
structure FriendRequest where
  sender_id : Nat
  source_universe_id : Nat
  sent_at : String
  origin_source_type : String
  contact_name : Option String
deriving DecidableEq

/-- A friend request with its sender's details
    (`FriendRequestUserInformation` in `friends/mod.rs`). -/
structure FriendRequestUserInformation where
  friend_request : FriendRequest
  mutual_friends_list : List String
  has_verified_badge : Bool
  description : Option String
  created : String
  is_banned : Bool
  external_app_display_name : Option String
  user_id : Nat
  username : String
  display_name : String
deriving DecidableEq

/-- Modelled from the spec: `friends/request_types.rs` is not among the
    given sources; per the spec the friends-list response has shape
    `\x7b data: [FriendsUserInformation] \x7d`. -/
structure FriendsListResponse where
  data : List FriendsUserInformation
deriving DecidableEq

/-- Modelled from the spec: `friends/request_types.rs` is not among the
    given sources; per the spec the friend-requests response has shape
    `\x7b data: [...], nextPageCursor \x7d`. -/
structure FriendRequestsResponse where
  data : List FriendRequestUserInformation
  next_page_cursor : Option String
deriving DecidableEq

/-- Modelled from the spec: `friends/request_types.rs` is not among the
    given sources; per the spec the pending-count response has shape
    `\x7b count: integer \x7d`. -/
structure PendingFriendRequestsResponse where
  count : Nat
deriving DecidableEq

/-- Deserializer for `ClientUserInformation` (aliases `id`, `name`,
    `displayName` next to the public field names). -/
def decodeClientUserInformation (j : Json) : Option ClientUserInformation :=
  match j with
  | .obj fs => do
    let user_id ← reqField fs ["id", "user_id"] Json.asU64
    let username ← reqField fs ["name", "username"] Json.asStr
    let display_name ← reqField fs ["displayName", "display_name"] Json.asStr
    some ⟨user_id, username, display_name⟩
  | _ => none

/-- Deserializer for `UserDetails`. -/
def decodeUserDetails (j : Json) : Option UserDetails :=
  match j with
  | .obj fs => do
    let username ← reqField fs ["name", "username"] Json.asStr
    let display_name ← reqField fs ["displayName", "display_name"] Json.asStr
    let id ← reqField fs ["id"] Json.asU64
    let description ← reqField fs ["description"] Json.asStr
    let created_at ← reqField fs ["created", "created_at"] Json.asStr
    let is_terminated ← reqField fs ["isBanned", "is_terminated"] Json.asBool
    let has_verified_badge ← reqField fs ["hasVerifiedBadge", "has_verified_badge"] Json.asBool
    some ⟨username, display_name, id, description, created_at, is_terminated,
      has_verified_badge⟩
  | _ => none

/-- Deserializer for `UsernameUserDetails`. -/
def decodeUsernameUserDetails (j : Json) : Option UsernameUserDetails :=
  match j with
  | .obj fs => do
    let requested_username ← reqField fs ["requested_username"] Json.asStr
    let username ← reqField fs ["name", "username"] Json.asStr
    let display_name ← reqField fs ["displayName", "display_name"] Json.asStr
    let id ← reqField fs ["id"] Json.asU64
    let has_verified_badge ← reqField fs ["hasVerifiedBadge", "has_verified_badge"] Json.asBool
    some ⟨requested_username, username, display_name, id, has_verified_badge⟩
  | _ => none

/-- Deserializer for the wire entry `UserSearchUserInformationRaw`
    (`rename_all = "camelCase"`: only the camelCase names are accepted). -/
def decodeUserSearchUserInformationRaw (j : Json) : Option UserSearchUserInformationRaw :=
  match j with
  | .obj fs => do
    let id ← reqField fs ["id"] Json.asU64
    let name ← reqField fs ["name"] Json.asStr
    let has_verified_badge ← reqField fs ["hasVerifiedBadge"] Json.asBool
    let previous_usernames ← reqField fs ["previousUsernames"] Json.asStrList
    let display_name ← reqField fs ["displayName"] Json.asStr
    some ⟨id, name, has_verified_badge, previous_usernames, display_name⟩
  | _ => none

/-- Deserializer for the wire shape `UserSearchResponse`: `nextPageCursor`
    is a required `String`, `previousPageCursor` an `Option`. -/
def decodeUserSearchResponse (j : Json) : Option UserSearchResponse :=
  match j with
  | .obj fs => do
    let previous_page_cursor ← optField fs ["previousPageCursor"] Json.asStr
    let next_page_cursor ← reqField fs ["nextPageCursor"] Json.asStr
    let dataField ← lookupField fs ["data"]
    let entries ← match dataField with
      | .arr xs => mapMDecode decodeUserSearchUserInformationRaw xs
      | _ => none
    some ⟨previous_page_cursor, next_page_cursor, entries⟩
  | _ => none

/-- Deserializer for the wire entry `UserPresenceRaw`
    (`rename_all = "camelCase"`). -/
def decodeUserPresenceRaw (j : Json) : Option UserPresenceRaw :=
  match j with
  | .obj fs => do
    let user_presence_type ← reqField fs ["userPresenceType"] Json.asI32
    let last_location ← optField fs ["lastLocation"] Json.asStr
    let place_id ← optField fs ["placeId"] Json.asU64
    let root_place_id ← optField fs ["rootPlaceId"] Json.asU64
    let game_id ← optField fs ["gameId"] Json.asStr
    let universe_id ← optField fs ["universeId"] Json.asU64
    let user_id ← optField fs ["userId"] Json.asU64
    let last_online ← reqField fs ["lastOnline"] Json.asStr
    let invisible_mod_expiry ← optField fs ["invisibleModExpiry"] Json.asStr
    some ⟨user_presence_type, last_location, place_id, root_place_id, game_id,
      universe_id, user_id, last_online, invisible_mod_expiry⟩
  | _ => none

/-- Deserializer for `UserPresenceResponse` (`rename_all = "camelCase"`). -/
def decodeUserPresenceResponse (j : Json) : Option UserPresenceResponse :=
  match j with
  | .obj fs => do
    let dataField ← lookupField fs ["userPresences"]
    let entries ← match dataField with
      | .arr xs => mapMDecode decodeUserPresenceRaw xs
      | _ => none
    some ⟨entries⟩
  | _ => none

/-- Deserializer for the wire entry `UsernameUserInformationRaw`
    (`rename_all = "camelCase"`). -/
def decodeUsernameUserInformationRaw (j : Json) : Option UsernameUserInformationRaw :=
  match j with
  | .obj fs => do
    let requested_username ← reqField fs ["requestedUsername"] Json.asStr
    let has_verified_badge ← reqField fs ["hasVerifiedBadge"] Json.asBool
    let id ← reqField fs ["id"] Json.asU64
    let name ← reqField fs ["name"] Json.asStr
    let display_name ← reqField fs ["displayName"] Json.asStr
    some ⟨requested_username, has_verified_badge, id, name, display_name⟩
  | _ => none

/-- Deserializer for `UsernameUserDetailsResponse`. -/
def decodeUsernameUserDetailsResponse (j : Json) : Option UsernameUserDetailsResponse :=
  match j with
  | .obj fs => do
    let dataField ← lookupField fs ["data"]
    let entries ← match dataField with
      | .arr xs => mapMDecode decodeUsernameUserInformationRaw xs
      | _ => none
    some ⟨entries⟩
  | _ => none

/-- Deserializer for `FriendsUserInformation` (serde aliases on each renamed
    field; `description` and `created` are not renamed). -/
def decodeFriendsUserInformation (j : Json) : Option FriendsUserInformation :=
  match j with
  | .obj fs => do
    let user_id ← reqField fs ["id", "user_id"] Json.asU64
    let external_app_display_name ←
      optField fs ["externalAppDisplayName", "external_app_display_name"] Json.asStr
    let username ← reqField fs ["name", "username"] Json.asStr
    let display_name ← reqField fs ["displayName", "display_name"] Json.asStr
    let is_online ← reqField fs ["isOnline", "is_online"] Json.asBool
    let presence_type ← optField fs ["presenceType", "presence_type"] Json.asI32
    let is_deleted ← reqField fs ["isDeleted", "is_deleted"] Json.asBool
    let is_banned ← reqField fs ["isBanned", "is_banned"] Json.asBool
    let friend_frequent_score ←
      reqField fs ["friendFrequentScore", "friend_frequent_score"] Json.asI64
    let friend_frequent_rank ←
      reqField fs ["friendFrequentRank", "friend_frequent_rank"] Json.asI64
    let has_verified_badge ← reqField fs ["hasVerifiedBadge", "has_verified_badge"] Json.asBool
    let description ← optField fs ["description"] Json.asStr
    let created ← reqField fs ["created"] Json.asStr
    some ⟨user_id, external_app_display_name, username, display_name, is_online,
      presence_type, is_deleted, is_banned, friend_frequent_score,
      friend_frequent_rank, has_verified_badge, description, created⟩
  | _ => none

/-- Deserializer for `FriendRequest`. -/
def decodeFriendRequest (j : Json) : Option FriendRequest :=
  match j with
  | .obj fs => do
    let sender_id ← reqField fs ["senderId", "sender_id"] Json.asU64
    let source_universe_id ←
      reqField fs ["sourceUniverseId", "source_universe_id"] Json.asU64
    let sent_at ← reqField fs ["sentAt", "sent_at"] Json.asStr
    let origin_source_type ←
      reqField fs ["originSourceType", "origin_source_type"] Json.asStr
    let contact_name ← optField fs ["contactName", "contact_name"] Json.asStr
    some ⟨sender_id, source_universe_id, sent_at, origin_source_type, contact_name⟩
  | _ => none

/-- Deserializer for `FriendRequestUserInformation`. -/
def decodeFriendRequestUserInformation (j : Json) : Option FriendRequestUserInformation :=
  match j with
  | .obj fs => do
    let frField ← lookupField fs ["friendRequest", "friend_request"]
    let friend_request ← decodeFriendRequest frField
    let mutual_friends_list ←
      reqField fs ["mutualFriendsList", "mutual_friends_list"] Json.asStrList
    let has_verified_badge ← reqField fs ["hasVerifiedBadge", "has_verified_badge"] Json.asBool
    let description ← optField fs ["description"] Json.asStr
    let created ← reqField fs ["created"] Json.asStr
    let is_banned ← reqField fs ["isBanned", "is_banned"] Json.asBool
    let external_app_display_name ←
      optField fs ["externalAppDisplayName", "external_app_display_name"] Json.asStr
    let user_id ← reqField fs ["id", "user_id"] Json.asU64
    let username ← reqField fs ["name", "username"] Json.asStr
    let display_name ← reqField fs ["displayName", "display_name"] Json.asStr
    some ⟨friend_request, mutual_friends_list, has_verified_badge, description,
      created, is_banned, external_app_display_name, user_id, username, display_name⟩
  | _ => none

/-- Deserializer for the modelled `FriendsListResponse`. -/
def decodeFriendsListResponse (j : Json) : Option FriendsListResponse :=
  match j with
  | .obj fs => do
    let dataField ← lookupField fs ["data"]
    let entries ← match dataField with
      | .arr xs => mapMDecode decodeFriendsUserInformation xs
      | _ => none
    some ⟨entries⟩
  | _ => none

/-- Deserializer for the modelled `FriendRequestsResponse`. -/
def decodeFriendRequestsResponse (j : Json) : Option FriendRequestsResponse :=
  match j with
  | .obj fs => do
    let dataField ← lookupField fs ["data"]
    let entries ← match dataField with
      | .arr xs => mapMDecode decodeFriendRequestUserInformation xs
      | _ => none
    let next_page_cursor ← optField fs ["nextPageCursor"] Json.asStr
    some ⟨entries, next_page_cursor⟩
  | _ => none

/-- Deserializer for the modelled `PendingFriendRequestsResponse`. -/
def decodePendingFriendRequestsResponse (j : Json) : Option PendingFriendRequestsResponse :=
  match j with
  | .obj fs => do
    let count ← reqField fs ["count"] Json.asU64
    some ⟨count⟩
  | _ => none

/-- Serialize an `Option<String>` field value (`none` serializes to `null`). -/
def encodeOptStr : Option String → Json
  | none => .null
  | some s => .str s

/-- Serialize an `Option<i32>` field value. -/
def encodeOptInt : Option Int → Json
  | none => .null
  | some v => .num v

/-- Serializer for `FriendsUserInformation`: serde emits the public (Rust)
    field names in declaration order; aliases affect only deserialization. -/
def encodeFriendsUserInformation (f : FriendsUserInformation) : Json :=
  .obj [("user_id", .num (Int.ofNat f.user_id)),
        ("external_app_display_name", encodeOptStr f.external_app_display_name),
        ("username", .str f.username),
        ("display_name", .str f.display_name),
        ("is_online", .bool f.is_online),
        ("presence_type", encodeOptInt f.presence_type),
        ("is_deleted", .bool f.is_deleted),
        ("is_banned", .bool f.is_banned),
        ("friend_frequent_score", .num f.friend_frequent_score),
        ("friend_frequent_rank", .num f.friend_frequent_rank),
        ("has_verified_badge", .bool f.has_verified_badge),
        ("description", encodeOptStr f.description),
        ("created", .str f.created)]

/-- Serializer for `UserDetails`. -/
def encodeUserDetails (u : UserDetails) : Json :=
  .obj [("username", .str u.username),
        ("display_name", .str u.display_name),
        ("id", .num (Int.ofNat u.id)),
        ("description", .str u.description),
        ("created_at", .str u.created_at),
        ("is_terminated", .bool u.is_terminated),
        ("has_verified_badge", .bool u.has_verified_badge)]

/-- Serializer for `UsernameUserDetails`. -/
def encodeUsernameUserDetails (u : UsernameUserDetails) : Json :=
  .obj [("requested_username", .str u.requested_username),
        ("username", .str u.username),
        ("display_name", .str u.display_name),
        ("id", .num (Int.ofNat u.id)),
        ("has_verified_badge", .bool u.has_verified_badge)]

/-- Serializer for the wire entry `UserSearchUserInformationRaw`
    (camelCase wire names, as serde's `rename_all` emits). -/
def encodeUserSearchUserInformationRaw (u : UserSearchUserInformationRaw) : Json :=
  .obj [("id", .num (Int.ofNat u.id)),
        ("name", .str u.name),
        ("hasVerifiedBadge", .bool u.has_verified_badge),
        ("previousUsernames", .arr (u.previous_usernames.map Json.str)),
        ("displayName", .str u.display_name)]

/-- Endpoint URL constant (`USERS_SEARCH_API` in `users/mod.rs`). -/
def USERS_SEARCH_API : String := "https://users.roblox.com/v1/users/search"

/-- Endpoint URL constant (`AUTHENTICATED_USER_DETAILS_API` in `users/mod.rs`). -/
def AUTHENTICATED_USER_DETAILS_API : String :=
  "https://users.roblox.com/v1/users/authenticated"

/-- Endpoint URL template (`USER_DETAILS_API` in `users/mod.rs`). -/
def USER_DETAILS_API : String := "https://users.roblox.com/v1/users/{user_id}"

/-- Endpoint URL constant (`USER_FROM_USERNAME_API` in `users/mod.rs`). -/
def USER_FROM_USERNAME_API : String := "https://users.roblox.com/v1/usernames/users"

/-- Endpoint URL constant (the presence URL inlined in `user_presence`). -/
def USER_PRESENCE_API : String := "https://presence.roblox.com/v1/presence/users"

/-- Endpoint URL template (`FRIENDS_LIST` in `friends/mod.rs`). -/
def FRIENDS_LIST : String := "https://friends.roblox.com/v1/users/{user_id}/friends"

/-- Endpoint URL constant (`FRIEND_REQUESTS` in `friends/mod.rs`). -/
def FRIEND_REQUESTS : String := "https://friends.roblox.com/v1/my/friends/requests"

/-- Endpoint URL constant (`PENDING_FRIEND_REQUESTS` in `friends/mod.rs`). -/
def PENDING_FRIEND_REQUESTS : String :=
  "https://friends.roblox.com/v1/user/friend-requests/count"

/-- Modelled from the spec: `Client::cookie_string` lives in the crate root,
    outside the given sources. Per the spec, a required-auth endpoint fetches
    the session's token and fails with the missing-authentication error when
    it is absent, before any network call; the token is otherwise carried as
    an opaque cookie header value. -/
def cookie_string (st : ClientState) : Except RoboatError String :=
  match st.roblosecurity with
  | some token => .ok token
  | none => .error .missingAuth

/-- Modelled from the spec: `Client::validate_request_result` lives in the
    crate root, outside the given sources. Per the spec's response-validator
    contract: 2xx forwards the body; 401/403 is authentication rejected;
    429 is rate limited; any other status is an unexpected-status failure
    carrying status and body; a transport failure is a connection failure. -/
def validate_request_result (r : HttpResult) : Except RoboatError Json :=
  match r with
  | .netError => .error .connectionFailed
  | .response status body =>
    if 200 ≤ status ∧ status ≤ 299 then .ok body
    else if status = 401 ∨ status = 403 then .error .authRejected
    else if status = 429 then .error .rateLimited
    else .error (.unexpectedStatus status body)

/-- Modelled from the spec: `Client::parse_to_raw` lives in the crate root,
    outside the given sources. Per the spec's typed-decoder contract, a body
    that does not match the target schema is a decode failure, distinct from
    HTTP-level failures. -/
def parse_to_raw (decode : Json → Option α) (body : Json) : Except RoboatError α :=
  match decode body with
  | some v => .ok v
  | none => .error .decodeFailure

/-- One transport round trip followed by validation and decoding, the shared
    tail of every endpoint function (steps 4.1-4.3 of the spec's recipe). -/
def run_pipeline (decode : Json → Option α)
    (transport : HttpRequest → HttpResult) (req : HttpRequest) :
    Except RoboatError α :=
  match validate_request_result (transport req) with
  | .error e => .error e
  | .ok body => parse_to_raw decode body

/-- The request `friends_list` issues: a GET of the friends-list URL with the
    user id substituted, with no cookie header attached (the source sends the
    request without a `.header(header::COOKIE, ...)` call). -/
def friends_list_request (user_id : Nat) : HttpRequest :=
  { method := .get,
    url := "https://friends.roblox.com/v1/users/" ++ toString user_id ++ "/friends",
    cookie := none,
    body := none }

/-- Get the list of all friends of a user (`Client::friends_list` in
    `friends/mod.rs`). The transport oracle stands for the HTTP client; the
    returned triple is (result, issued requests, session state after the
    call). -/
def friends_list (st : ClientState) (transport : HttpRequest → HttpResult)
    (user_id : Nat) :
    Except RoboatError (List FriendsUserInformation) × List HttpRequest × ClientState :=
  let req := friends_list_request user_id
  ((run_pipeline decodeFriendsListResponse transport req).map (fun raw => raw.data),
   [req], st)

/-- The URL `friend_requests` issues: the literal friend-requests URL with
    `?limit=10` and nothing else (the cursor argument does not appear). -/
def friend_requests_url : String := FRIEND_REQUESTS ++ "?limit=" ++ toString 10

/-- The request `friend_requests` issues when the session token is `token`. -/
def friend_requests_request (token : String) : HttpRequest :=
  { method := .get, url := friend_requests_url, cookie := some token, body := none }

/-- Get the list of friend requests (`Client::friend_requests` in
    `friends/mod.rs`). The `cursor` parameter mirrors the source's signature;
    as in the source, it is not used when building the request. -/
def friend_requests (st : ClientState) (transport : HttpRequest → HttpResult)
    (cursor : Option String) :
    Except RoboatError (List FriendRequestUserInformation × Option String) ×
      List HttpRequest × ClientState :=
  match cookie_string st with
  | .error e => (.error e, [], st)
  | .ok cookie =>
    let req := friend_requests_request cookie
    ((run_pipeline decodeFriendRequestsResponse transport req).map
        (fun raw => (raw.data, raw.next_page_cursor)),
     [req], st)

/-- The request `pending_friend_requests` issues with session token `token`. -/
def pending_friend_requests_request (token : String) : HttpRequest :=
  { method := .get, url := PENDING_FRIEND_REQUESTS, cookie := some token, body := none }

/-- Get the count of pending friend requests
    (`Client::pending_friend_requests` in `friends/mod.rs`). -/
def pending_friend_requests (st : ClientState)
    (transport : HttpRequest → HttpResult) :
    Except RoboatError Nat × List HttpRequest × ClientState :=
  match cookie_string st with
  | .error e => (.error e, [], st)
  | .ok cookie =>
    let req := pending_friend_requests_request cookie
    ((run_pipeline decodePendingFriendRequestsResponse transport req).map
        (fun raw => raw.count),
     [req], st)

/-- The request `user_information_internal` issues with session token
    `token`. -/
def user_information_request (token : String) : HttpRequest :=
  { method := .get, url := AUTHENTICATED_USER_DETAILS_API,
    cookie := some token, body := none }

/-- Fetch the authenticated user's identity
    (`Client::user_information_internal` in `users/mod.rs`). On success the
    session's identity cache is written with the fetched value before the
    result is returned. -/
def user_information_internal (st : ClientState)
    (transport : HttpRequest → HttpResult) :
    Except RoboatError ClientUserInformation × List HttpRequest × ClientState :=
  match cookie_string st with
  | .error e => (.error e, [], st)
  | .ok cookie =>
    let req := user_information_request cookie
    match run_pipeline decodeClientUserInformation transport req with
    | .error e => (.error e, [req], st)
    | .ok info => (.ok info, [req], { st with user_information := some info })

/-- The request `user_search` issues: the keyword is appended verbatim after
    `?keyword=` (the source's `format!`), and the cookie header is the
    session's token or the empty string (`unwrap_or` of the empty header). -/
def user_search_request (st : ClientState) (keyword : String) : HttpRequest :=
  { method := .get,
    url := USERS_SEARCH_API ++ "?keyword=" ++ keyword,
    cookie := some (match cookie_string st with | .ok c => c | .error _ => ""),
    body := none }

/-- Search for users (`Client::user_search` in `users/mod.rs`): maps each
    decoded wire entry, in order, to a `User`. -/
def user_search (st : ClientState) (transport : HttpRequest → HttpResult)
    (keyword : String) :
    Except RoboatError (List User) × List HttpRequest × ClientState :=
  let req := user_search_request st keyword
  ((run_pipeline decodeUserSearchResponse transport req).map
      (fun raw => raw.data.map
        (fun user => { user_id := user.id, username := user.name,
                       display_name := user.display_name })),
   [req], st)

/-- The request `user_presence` issues: a POST with body
    `\x7b "userIds": [...] \x7d` and the session's token or the empty string
    as the cookie header. -/
def user_presence_request (st : ClientState) (user_ids : List Nat) : HttpRequest :=
  { method := .post,
    url := USER_PRESENCE_API,
    cookie := some (match cookie_string st with | .ok c => c | .error _ => ""),
    body := some (.obj [("userIds", .arr (user_ids.map (fun i => .num (Int.ofNat i))))]) }

/-- Fetch presence for a batch of users (`Client::user_presence` in
    `users/mod.rs`): the decoded response is returned unchanged. -/
def user_presence (st : ClientState) (transport : HttpRequest → HttpResult)
    (user_ids : List Nat) :
    Except RoboatError UserPresenceResponse × List HttpRequest × ClientState :=
  let req := user_presence_request st user_ids
  (run_pipeline decodeUserPresenceResponse transport req, [req], st)

/-- Fetch the details of one user (`Client::user_details` in
    `users/mod.rs`): an unauthenticated GET with the id substituted. -/
def user_details (st : ClientState) (transport : HttpRequest → HttpResult)
    (user_id : Nat) :
    Except RoboatError UserDetails × List HttpRequest × ClientState :=
  let req : HttpRequest :=
    { method := .get,
      url := "https://users.roblox.com/v1/users/" ++ toString user_id,
      cookie := none, body := none }
  (run_pipeline decodeUserDetails transport req, [req], st)

/-- Fetch details for a batch of usernames (`Client::username_user_details`
    in `users/mod.rs`): an unauthenticated POST whose body serializes
    `UsernameUserDetailsRequest` (camelCase wire names); each decoded wire
    entry is mapped, in order, to a `UsernameUserDetails`. -/
def username_user_details (st : ClientState)
    (transport : HttpRequest → HttpResult)
    (usernames : List String) (exclude_banned_users : Bool) :
    Except RoboatError (List UsernameUserDetails) × List HttpRequest × ClientState :=
  let req : HttpRequest :=
    { method := .post,
      url := USER_FROM_USERNAME_API,
      cookie := none,
      body := some (.obj [("usernames", .arr (usernames.map Json.str)),
                          ("excludeBannedUsers", .bool exclude_banned_users)]) }
  ((run_pipeline decodeUsernameUserDetailsResponse transport req).map
      (fun raw => raw.data.map
        (fun user => { requested_username := user.requested_username,
                       username := user.name,
                       display_name := user.display_name,
                       id := user.id,
                       has_verified_badge := user.has_verified_badge })),
   [req], st)

/-- Wire body of the spec's friends-list example, with the fields elided by
    the spec's `...` filled in with representative values. -/
def friendsListExampleBody : Json :=
  .obj [("data", .arr [.obj
    [("id", .num 1),
     ("name", .str "a"),
     ("displayName", .str "A"),
     ("isOnline", .bool true),
     ("presenceType", .num 1),
     ("isDeleted", .bool false),
     ("isBanned", .bool false),
     ("friendFrequentScore", .num 0),
     ("friendFrequentRank", .num 1),
     ("hasVerifiedBadge", .bool false),
     ("description", .null),
     ("created", .str "2020-01-01T00:00:00Z")]])]

/-- The entry the spec's friends-list example decodes to. -/
def friendsListExampleEntry : FriendsUserInformation :=
  { user_id := 1,
    external_app_display_name := none,
    username := "a",
    display_name := "A",
    is_online := true,
    presence_type := some 1,
    is_deleted := false,
    is_banned := false,
    friend_frequent_score := 0,
    friend_frequent_rank := 1,
    has_verified_badge := false,
    description := none,
    created := "2020-01-01T00:00:00Z" }

end Roboat
namespace Roboat

/-- The response validator never produces the missing-authentication error. -/
theorem validate_request_result_ne_missingAuth (r : HttpResult) :
    validate_request_result r ≠ .error .missingAuth := by
  unfold validate_request_result
  cases r with
  | netError => simp
  | response status body =>
    dsimp only
    split
    · simp
    · split
      · simp
      · split <;> simp

/-- The shared pipeline never produces the missing-authentication error. -/
theorem run_pipeline_ne_missingAuth (decode : Json → Option α)
    (transport : HttpRequest → HttpResult) (req : HttpRequest) :
    run_pipeline decode transport req ≠ .error .missingAuth := by
  unfold run_pipeline
  split
  case h_1 e he =>
    intro hc
    apply validate_request_result_ne_missingAuth (transport req)
    rw [he]
    cases hc
    rfl
  case h_2 body _ =>
    unfold parse_to_raw
    split <;> simp

/-- Mapping a result preserves freedom from the missing-authentication error. -/
theorem map_ne_missingAuth (x : Except RoboatError α) (f : α → β)
    (h : x ≠ .error .missingAuth) : x.map f ≠ .error .missingAuth := by
  cases x with
  | error e => simpa [Except.map] using h
  | ok v => simp [Except.map]

/-- A 200 response whose body decodes runs the pipeline to that value. -/
theorem run_pipeline_success (decode : Json → Option α)
    (transport : HttpRequest → HttpResult) (req : HttpRequest)
    (body : Json) (v : α)
    (htr : transport req = .response 200 body)
    (hdec : decode body = some v) :
    run_pipeline decode transport req = .ok v := by
  unfold run_pipeline validate_request_result
  rw [htr]
  simp [parse_to_raw, hdec]

/-- A `u64` member below the bound decodes to itself. -/
theorem json_asU64_ofNat (n : Nat) (h : n < 2 ^ 64) :
    Json.asU64 (.num (Int.ofNat n)) = some n := by
  show (if n < 2 ^ 64 then some n else none) = some n
  rw [if_pos h]

/-- An `i64` member within range decodes to itself. -/
theorem json_asI64_of_range (v : Int) (h : -(2 ^ 63) ≤ v ∧ v < 2 ^ 63) :
    Json.asI64 (.num v) = some v := by
  cases v with
  | ofNat m =>
    show (if m < 2 ^ 63 then some (Int.ofNat m) else none) = some (Int.ofNat m)
    rw [if_pos (by simp only [Int.ofNat_eq_natCast] at h; omega)]
  | negSucc m =>
    show (if m < 2 ^ 63 then some (Int.negSucc m) else none) = some (Int.negSucc m)
    rw [if_pos (by simp only [Int.negSucc_eq] at h; omega)]

/-- An `i32` member within range decodes to itself. -/
theorem json_asI32_of_range (v : Int) (h : -(2 ^ 31) ≤ v ∧ v < 2 ^ 31) :
    Json.asI32 (.num v) = some v := by
  cases v with
  | ofNat m =>
    show (if m < 2 ^ 31 then some (Int.ofNat m) else none) = some (Int.ofNat m)
    rw [if_pos (by simp only [Int.ofNat_eq_natCast] at h; omega)]
  | negSucc m =>
    show (if m < 2 ^ 31 then some (Int.negSucc m) else none) = some (Int.negSucc m)
    rw [if_pos (by simp only [Int.negSucc_eq] at h; omega)]

/-- A serialized optional string decodes back to itself. -/
theorem decodeOptJson_encodeOptStr (x : Option String) :
    decodeOptJson (some (encodeOptStr x)) Json.asStr = some x := by
  cases x <;> rfl

/-- A serialized optional `i32` within range decodes back to itself. -/
theorem decodeOptJson_encodeOptInt (x : Option Int)
    (h : ∀ v, x = some v → -(2 ^ 31) ≤ v ∧ v < 2 ^ 31) :
    decodeOptJson (some (encodeOptInt x)) Json.asI32 = some x := by
  cases x with
  | none => rfl
  | some v =>
    show (Json.asI32 (.num v)).map some = some (some v)
    rw [json_asI32_of_range v (h v rfl)]
    rfl

/-- A serialized string list decodes back to itself. -/
theorem json_asStrList_map (l : List String) :
    Json.asStrList (.arr (l.map Json.str)) = some l := by
  show mapMDecode Json.asStr (l.map Json.str) = some l
  induction l with
  | nil => rfl
  | cons s rest ih => simp [mapMDecode, ih, Json.asStr]

/-- Serde round trip for `UserDetails`. -/
theorem decode_encode_userDetails (u : UserDetails) (h : u.id < 2 ^ 64) :
    decodeUserDetails (encodeUserDetails u) = some u := by
  cases u with
  | mk username display_name id description created_at is_terminated hvb =>
    simp only at h
    simp only [encodeUserDetails, decodeUserDetails, reqField, lookupField,
      Json.asStr, Json.asBool, List.mem_cons, List.mem_singleton,
      List.not_mem_nil, or_false, false_or, String.reduceEq, reduceIte,
      Option.some_bind, json_asU64_ofNat id h]
    rfl

/-- Serde round trip for `UsernameUserDetails`. -/
theorem decode_encode_usernameUserDetails (u : UsernameUserDetails)
    (h : u.id < 2 ^ 64) :
    decodeUsernameUserDetails (encodeUsernameUserDetails u) = some u := by
  cases u with
  | mk ru username display_name id hvb =>
    simp only at h
    simp only [encodeUsernameUserDetails, decodeUsernameUserDetails, reqField,
      lookupField, Json.asStr, Json.asBool, List.mem_cons, List.mem_singleton,
      List.not_mem_nil, or_false, false_or, String.reduceEq, reduceIte,
      Option.some_bind, json_asU64_ofNat id h]
    rfl

/-- Serde round trip for `FriendsUserInformation`. -/
theorem decode_encode_friendsUserInformation (f : FriendsUserInformation)
    (h1 : f.user_id < 2 ^ 64)
    (h2 : ∀ v, f.presence_type = some v → -(2 ^ 31) ≤ v ∧ v < 2 ^ 31)
    (h3 : -(2 ^ 63) ≤ f.friend_frequent_score ∧ f.friend_frequent_score < 2 ^ 63)
    (h4 : -(2 ^ 63) ≤ f.friend_frequent_rank ∧ f.friend_frequent_rank < 2 ^ 63) :
    decodeFriendsUserInformation (encodeFriendsUserInformation f) = some f := by
  cases f with
  | mk uid ext username display_name io pt idel ib ffs ffr hvb descr created =>
    simp only at h1 h2 h3 h4
    simp only [encodeFriendsUserInformation, decodeFriendsUserInformation,
      reqField, optField, lookupField, Json.asStr, Json.asBool, List.mem_cons,
      List.mem_singleton, List.not_mem_nil, or_false, false_or,
      String.reduceEq, reduceIte, Option.some_bind,
      json_asU64_ofNat uid h1, decodeOptJson_encodeOptStr,
      decodeOptJson_encodeOptInt pt h2, json_asI64_of_range ffs h3,
      json_asI64_of_range ffr h4]
    rfl

/-- Serde round trip for the wire entry `UserSearchUserInformationRaw`. -/
theorem decode_encode_userSearchRaw (u : UserSearchUserInformationRaw)
    (h : u.id < 2 ^ 64) :
    decodeUserSearchUserInformationRaw (encodeUserSearchUserInformationRaw u)
      = some u := by
  cases u with
  | mk id name hvb prev display_name =>
    simp only at h
    simp only [encodeUserSearchUserInformationRaw,
      decodeUserSearchUserInformationRaw, reqField, lookupField, Json.asStr,
      Json.asBool, List.mem_cons, List.mem_singleton, List.not_mem_nil,
      or_false, false_or, String.reduceEq, reduceIte, Option.some_bind,
      json_asU64_ofNat id h, json_asStrList_map]
    rfl

/-- Element-wise round trip for a list of user-search wire entries. -/
theorem mapMDecode_encode_userSearchRaw (entries : List UserSearchUserInformationRaw)
    (h : ∀ e ∈ entries, e.id < 2 ^ 64) :
    mapMDecode decodeUserSearchUserInformationRaw
        (entries.map encodeUserSearchUserInformationRaw)
      = some entries := by
  induction entries with
  | nil => rfl
  | cons e rest ih =>
    simp only [List.map_cons, mapMDecode,
      decode_encode_userSearchRaw e (h e (List.mem_cons_self e rest)),
      Option.some_bind,
      ih (fun x hx => h x (List.mem_cons_of_mem e hx))]
    rfl

/-- Decoding the user-search body that carries data entries and a cursor. -/
theorem decode_userSearchResponse_body (c : String)
    (entries : List UserSearchUserInformationRaw)
    (h : ∀ e ∈ entries, e.id < 2 ^ 64) :
    decodeUserSearchResponse (Json.obj
        [("data", .arr (entries.map encodeUserSearchUserInformationRaw)),
         ("nextPageCursor", .str c)])
      = some ⟨none, c, entries⟩ := by
  simp only [decodeUserSearchResponse, reqField, optField, lookupField,
    Json.asStr, List.mem_cons, List.mem_singleton, List.not_mem_nil, or_false,
    false_or, String.reduceEq, reduceIte, Option.bind_eq_bind', Option.some_bind,
    decodeOptJson, mapMDecode_encode_userSearchRaw entries h]

/-- C1 counterexample: with a token present, calling `friend_requests` with
    cursor `some "abc"` issues exactly the same request (and returns the same
    result) as calling it with no cursor, and the one issued request's URL is
    the fixed `?limit=10` URL, which does not carry the cursor. The
    caller-supplied cursor is not threaded into the issued request. -/
theorem friend_requests_cursor_not_sent :
    (friend_requests ⟨some "TOKEN", none⟩ (fun _ => .netError) (some "abc")
      = friend_requests ⟨some "TOKEN", none⟩ (fun _ => .netError) none)
    ∧ (friend_requests ⟨some "TOKEN", none⟩ (fun _ => .netError) (some "abc")).2.1
      = [{ method := .get,
           url := "https://friends.roblox.com/v1/my/friends/requests?limit=10",
           cookie := some "TOKEN", body := none }] := ⟨rfl, rfl⟩

/-- C1 amended: `friend_requests` accepts a cursor argument but ignores it —
    for every cursor the issued request is the fixed `?limit=10` URL with the
    session cookie — and it returns the decoded page paired with the
    response's next-page cursor. -/
theorem friend_requests_fixed_page (st : ClientState) (token : String)
    (h : st.roblosecurity = some token)
    (transport : HttpRequest → HttpResult) (cursor : Option String)
    (body : Json) (raw : FriendRequestsResponse)
    (htr : transport (friend_requests_request token) = .response 200 body)
    (hdec : decodeFriendRequestsResponse body = some raw) :
    friend_requests st transport cursor
      = (.ok (raw.data, raw.next_page_cursor),
         [friend_requests_request token], st)
    ∧ friend_requests_url
      = "https://friends.roblox.com/v1/my/friends/requests?limit=10" := by
  constructor
  · simp only [friend_requests, cookie_string, h]
    rw [run_pipeline_success decodeFriendRequestsResponse transport _ body raw htr hdec]
    rfl
  · rfl

/-- C1 witness for the amended theorem at a concrete session and response. -/
theorem friend_requests_fixed_page_witness :
    friend_requests ⟨some "T", none⟩
        (fun _ => .response 200 (Json.obj [("data", .arr []), ("nextPageCursor", .null)]))
        none
      = (.ok ([], none), [friend_requests_request "T"], ⟨some "T", none⟩)
    ∧ friend_requests_url
      = "https://friends.roblox.com/v1/my/friends/requests?limit=10" :=
  friend_requests_fixed_page ⟨some "T", none⟩ "T" rfl
    (fun _ => .response 200 (Json.obj [("data", .arr []), ("nextPageCursor", .null)]))
    none (Json.obj [("data", .arr []), ("nextPageCursor", .null)]) ⟨[], none⟩ rfl rfl

/-- C2: on a session with no authentication token, each required-auth
    endpoint returns the missing-authentication error, issues no request,
    and leaves the session state unchanged. -/
theorem required_auth_without_token (st : ClientState)
    (h : st.roblosecurity = none)
    (transport : HttpRequest → HttpResult) (cursor : Option String) :
    friend_requests st transport cursor = (.error .missingAuth, [], st)
    ∧ pending_friend_requests st transport = (.error .missingAuth, [], st)
    ∧ user_information_internal st transport = (.error .missingAuth, [], st) := by
  refine ⟨?_, ?_, ?_⟩ <;>
    simp only [friend_requests, pending_friend_requests,
      user_information_internal, cookie_string, h]

/-- C2 witness at a concrete tokenless session. -/
theorem required_auth_without_token_witness :
    friend_requests ⟨none, none⟩ (fun _ => .netError) none
      = (.error .missingAuth, [], ⟨none, none⟩)
    ∧ pending_friend_requests ⟨none, none⟩ (fun _ => .netError)
      = (.error .missingAuth, [], ⟨none, none⟩)
    ∧ user_information_internal ⟨none, none⟩ (fun _ => .netError)
      = (.error .missingAuth, [], ⟨none, none⟩) :=
  required_auth_without_token ⟨none, none⟩ rfl (fun _ => .netError) none

/-- C4 counterexample: a session that does hold a token still issues the
    friends-list request with no cookie header attached. -/
theorem friends_list_token_present_no_cookie :
    (friends_list ⟨some "TOKEN", none⟩ (fun _ => .netError) 1).2.1
      = [{ method := .get,
           url := "https://friends.roblox.com/v1/users/1/friends",
           cookie := none, body := none }] := rfl

/-- C4 amended: `friends_list` never attaches the session's token — for
    every session state it issues exactly one request, and that request
    carries no cookie header. -/
theorem friends_list_never_attaches_cookie (st : ClientState)
    (transport : HttpRequest → HttpResult) (user_id : Nat) :
    (friends_list st transport user_id).2.1 = [friends_list_request user_id]
    ∧ (friends_list_request user_id).cookie = none := ⟨rfl, rfl⟩

/-- C9: `user_search` appends the keyword verbatim after `?keyword=` with no
    percent-encoding; in particular a keyword with URL metacharacters is
    interpolated unescaped. -/
theorem user_search_keyword_verbatim (st : ClientState)
    (transport : HttpRequest → HttpResult) (keyword : String) :
    (user_search_request st keyword).url
      = "https://users.roblox.com/v1/users/search?keyword=" ++ keyword
    ∧ (user_search st transport keyword).2.1 = [user_search_request st keyword]
    ∧ (user_search_request st "a&b #c").url
      = "https://users.roblox.com/v1/users/search?keyword=a&b #c" := by
  refine ⟨?_, rfl, rfl⟩
  show USERS_SEARCH_API ++ "?keyword=" ++ keyword = _
  rfl

/-- C3 counterexample: the body consisting of only the documented
    `data` array fails to decode (the wire struct requires `nextPageCursor`),
    so `user_search` on such a 2xx response returns a decode failure. -/
theorem user_search_documented_shape_fails :
    decodeUserSearchResponse (Json.obj [("data", Json.arr [])]) = none
    ∧ (user_search ⟨none, none⟩
        (fun _ => .response 200 (Json.obj [("data", Json.arr [])])) "keyword").1
      = .error .decodeFailure := ⟨rfl, rfl⟩

/-- C3 amended: a 2xx user-search body carrying the data array together with
    the required `nextPageCursor` string decodes, and `user_search` returns
    one `User` per data entry, in order, under the documented renames. -/
theorem user_search_returns_entries_in_order (st : ClientState)
    (transport : HttpRequest → HttpResult) (keyword c : String)
    (entries : List UserSearchUserInformationRaw)
    (hids : ∀ e ∈ entries, e.id < 2 ^ 64)
    (htr : transport (user_search_request st keyword)
      = .response 200 (Json.obj
          [("data", .arr (entries.map encodeUserSearchUserInformationRaw)),
           ("nextPageCursor", .str c)])) :
    user_search st transport keyword
      = (.ok (entries.map (fun u => ⟨u.id, u.name, u.display_name⟩)),
         [user_search_request st keyword], st) := by
  simp only [user_search]
  rw [run_pipeline_success decodeUserSearchResponse transport
    (user_search_request st keyword) _ ⟨none, c, entries⟩ htr
    (decode_userSearchResponse_body c entries hids)]
  rfl

/-- C3 witness for the amended theorem on a one-entry response. -/
theorem user_search_returns_entries_in_order_witness :
    user_search ⟨none, none⟩
        (fun _ => .response 200 (Json.obj
          [("data", .arr ([(⟨2, "b", false, [], "B"⟩
              : UserSearchUserInformationRaw)].map
              encodeUserSearchUserInformationRaw)),
           ("nextPageCursor", .str "next")])) "kw"
      = (.ok [⟨2, "b", "B"⟩], [user_search_request ⟨none, none⟩ "kw"],
         ⟨none, none⟩) :=
  user_search_returns_entries_in_order ⟨none, none⟩
    (fun _ => .response 200 (Json.obj
      [("data", .arr ([(⟨2, "b", false, [], "B"⟩
          : UserSearchUserInformationRaw)].map
          encodeUserSearchUserInformationRaw)),
       ("nextPageCursor", .str "next")])) "kw" "next"
    [⟨2, "b", false, [], "B"⟩] (by decide) rfl

/-- C5: on a tokenless session, `user_search` and `user_presence` do not
    fail with the missing-authentication error; each issues exactly one
    request whose cookie header is the empty string (no token attached). -/
theorem optional_auth_proceeds_without_token (st : ClientState)
    (h : st.roblosecurity = none)
    (transport : HttpRequest → HttpResult) (keyword : String)
    (user_ids : List Nat) :
    (user_search_request st keyword).cookie = some ""
    ∧ (user_search st transport keyword).2.1 = [user_search_request st keyword]
    ∧ (user_search st transport keyword).1 ≠ .error .missingAuth
    ∧ (user_presence_request st user_ids).cookie = some ""
    ∧ (user_presence st transport user_ids).2.1 = [user_presence_request st user_ids]
    ∧ (user_presence st transport user_ids).1 ≠ .error .missingAuth := by
  refine ⟨?_, rfl, ?_, ?_, rfl, ?_⟩
  · simp [user_search_request, cookie_string, h]
  · exact map_ne_missingAuth _ _ (run_pipeline_ne_missingAuth _ _ _)
  · simp [user_presence_request, cookie_string, h]
  · exact run_pipeline_ne_missingAuth _ _ _

/-- C5 witness at a concrete tokenless session. -/
theorem optional_auth_proceeds_without_token_witness :
    (user_search_request ⟨none, none⟩ "linkmon").cookie = some ""
    ∧ (user_search ⟨none, none⟩ (fun _ => .netError) "linkmon").2.1
      = [user_search_request ⟨none, none⟩ "linkmon"]
    ∧ (user_search ⟨none, none⟩ (fun _ => .netError) "linkmon").1
      ≠ .error .missingAuth
    ∧ (user_presence_request ⟨none, none⟩ [2207291]).cookie = some ""
    ∧ (user_presence ⟨none, none⟩ (fun _ => .netError) [2207291]).2.1
      = [user_presence_request ⟨none, none⟩ [2207291]]
    ∧ (user_presence ⟨none, none⟩ (fun _ => .netError) [2207291]).1
      ≠ .error .missingAuth :=
  optional_auth_proceeds_without_token ⟨none, none⟩ rfl (fun _ => .netError)
    "linkmon" [2207291]

/-- C6: the spec's friends-list wire example decodes to exactly one entry
    whose renamed fields carry the documented values, and `friends_list`
    returns that entry. -/
theorem friends_list_wire_example :
    decodeFriendsListResponse friendsListExampleBody
      = some ⟨[friendsListExampleEntry]⟩
    ∧ friendsListExampleEntry.user_id = 1
    ∧ friendsListExampleEntry.username = "a"
    ∧ friendsListExampleEntry.display_name = "A"
    ∧ friendsListExampleEntry.is_online = true
    ∧ (friends_list ⟨none, none⟩ (fun _ => .response 200 friendsListExampleBody) 1).1
      = .ok [friendsListExampleEntry] := ⟨rfl, rfl, rfl, rfl, rfl, rfl⟩

/-- C7: when a presence entry's wire object lacks `placeId`, `rootPlaceId`
    and `gameId`, the decoded entry returned by `user_presence` exposes
    `place_id`, `root_place_id` and `game_id` as `none`. -/
theorem user_presence_offline_fields_absent (fs : List (String × Json))
    (p : UserPresenceRaw)
    (hdec : decodeUserPresenceRaw (Json.obj fs) = some p)
    (h1 : lookupField fs ["placeId"] = none)
    (h2 : lookupField fs ["rootPlaceId"] = none)
    (h3 : lookupField fs ["gameId"] = none)
    (st : ClientState) (transport : HttpRequest → HttpResult)
    (user_ids : List Nat) (resp : UserPresenceResponse)
    (htr : transport (user_presence_request st user_ids)
      = .response 200 (Json.obj [("userPresences", Json.arr [Json.obj fs])]))
    (hresp : decodeUserPresenceResponse
        (Json.obj [("userPresences", Json.arr [Json.obj fs])]) = some resp) :
    (user_presence st transport user_ids).1 = .ok resp
    ∧ resp.user_presences = [p]
    ∧ p.place_id = none ∧ p.root_place_id = none ∧ p.game_id = none := by
  have hr : (user_presence st transport user_ids).1 = .ok resp := by
    simp only [user_presence]
    exact run_pipeline_success _ transport _ _ resp htr hresp
  have hup : resp.user_presences = [p] := by
    simp only [decodeUserPresenceResponse, lookupField, List.mem_cons,
      List.mem_singleton, List.not_mem_nil, or_false, false_or,
      String.reduceEq, reduceIte, Option.bind_eq_bind', Option.some_bind,
      mapMDecode, hdec, Option.some.injEq] at hresp
    rw [← hresp]
  have hfields : p.place_id = none ∧ p.root_place_id = none ∧ p.game_id = none := by
    simp only [decodeUserPresenceRaw, reqField, optField, h1, h2, h3,
      decodeOptJson, Option.bind_eq_bind', Option.bind_eq_some,
      Option.some.injEq] at hdec
    obtain ⟨upt, hupt, ll, hll, pid, hpid, rpid, hrpid, gid, hgid, uni, huni,
      uid2, huid2, lo, hlo, ime, hime, hp⟩ := hdec
    subst hp
    exact ⟨hpid.symm, hrpid.symm, hgid.symm⟩
  exact ⟨hr, hup, hfields⟩

/-- C7 witness: a concrete offline presence entry. -/
theorem user_presence_offline_fields_absent_witness :
    (user_presence ⟨none, none⟩
        (fun _ => .response 200 (Json.obj [("userPresences", Json.arr
          [Json.obj [("userPresenceType", Json.num 0),
                     ("lastOnline", Json.str "2020-01-01T00:00:00Z")]])]))
        [1]).1
      = .ok ⟨[⟨0, none, none, none, none, none, none,
          "2020-01-01T00:00:00Z", none⟩]⟩
    ∧ (⟨[⟨0, none, none, none, none, none, none, "2020-01-01T00:00:00Z", none⟩]⟩
        : UserPresenceResponse).user_presences
      = [⟨0, none, none, none, none, none, none, "2020-01-01T00:00:00Z", none⟩]
    ∧ (⟨0, none, none, none, none, none, none, "2020-01-01T00:00:00Z", none⟩
        : UserPresenceRaw).place_id = none
    ∧ (⟨0, none, none, none, none, none, none, "2020-01-01T00:00:00Z", none⟩
        : UserPresenceRaw).root_place_id = none
    ∧ (⟨0, none, none, none, none, none, none, "2020-01-01T00:00:00Z", none⟩
        : UserPresenceRaw).game_id = none :=
  user_presence_offline_fields_absent
    [("userPresenceType", Json.num 0),
     ("lastOnline", Json.str "2020-01-01T00:00:00Z")]
    ⟨0, none, none, none, none, none, none, "2020-01-01T00:00:00Z", none⟩
    rfl rfl rfl rfl ⟨none, none⟩
    (fun _ => .response 200 (Json.obj [("userPresences", Json.arr
      [Json.obj [("userPresenceType", Json.num 0),
                 ("lastOnline", Json.str "2020-01-01T00:00:00Z")]])]))
    [1]
    ⟨[⟨0, none, none, none, none, none, none, "2020-01-01T00:00:00Z", none⟩]⟩
    rfl rfl

/-- C8: on a successful authenticated-identity fetch the returned triple is
    also written to the session's identity cache, and no other endpoint
    function in these modules changes the session state. -/
theorem identity_cache_only_written_by_identity_fetch (st : ClientState)
    (token : String) (transport : HttpRequest → HttpResult) (body : Json)
    (info : ClientUserInformation)
    (h : st.roblosecurity = some token)
    (htr : transport (user_information_request token) = .response 200 body)
    (hdec : decodeClientUserInformation body = some info)
    (st2 : ClientState) (transport2 : HttpRequest → HttpResult)
    (uid : Nat) (cursor : Option String) (keyword : String)
    (ids : List Nat) (unames : List String) (ebu : Bool) (did : Nat) :
    user_information_internal st transport
      = (.ok info, [user_information_request token],
         { st with user_information := some info })
    ∧ (friends_list st2 transport2 uid).2.2 = st2
    ∧ (friend_requests st2 transport2 cursor).2.2 = st2
    ∧ (pending_friend_requests st2 transport2).2.2 = st2
    ∧ (user_search st2 transport2 keyword).2.2 = st2
    ∧ (user_presence st2 transport2 ids).2.2 = st2
    ∧ (user_details st2 transport2 did).2.2 = st2
    ∧ (username_user_details st2 transport2 unames ebu).2.2 = st2 := by
  refine ⟨?_, rfl, ?_, ?_, rfl, rfl, rfl, rfl⟩
  · simp only [user_information_internal, cookie_string, h]
    rw [run_pipeline_success decodeClientUserInformation transport _ body info htr hdec]
  · rcases hcs : cookie_string st2 with e | c <;> simp [friend_requests, hcs]
  · rcases hcs : cookie_string st2 with e | c <;> simp [pending_friend_requests, hcs]

/-- C8 witness at a concrete session and identity response. -/
theorem identity_cache_only_written_by_identity_fetch_witness :
    user_information_internal ⟨some "T", none⟩
        (fun _ => .response 200 (Json.obj
          [("id", Json.num 5), ("name", Json.str "b"),
           ("displayName", Json.str "B")]))
      = (.ok ⟨5, "b", "B"⟩, [user_information_request "T"],
         ⟨some "T", some ⟨5, "b", "B"⟩⟩)
    ∧ (friends_list ⟨none, none⟩ (fun _ => .netError) 1).2.2 = ⟨none, none⟩
    ∧ (friend_requests ⟨none, none⟩ (fun _ => .netError) none).2.2 = ⟨none, none⟩
    ∧ (pending_friend_requests ⟨none, none⟩ (fun _ => .netError)).2.2 = ⟨none, none⟩
    ∧ (user_search ⟨none, none⟩ (fun _ => .netError) "k").2.2 = ⟨none, none⟩
    ∧ (user_presence ⟨none, none⟩ (fun _ => .netError) [1]).2.2 = ⟨none, none⟩
    ∧ (user_details ⟨none, none⟩ (fun _ => .netError) 2).2.2 = ⟨none, none⟩
    ∧ (username_user_details ⟨none, none⟩ (fun _ => .netError) ["x"] true).2.2
      = ⟨none, none⟩ :=
  identity_cache_only_written_by_identity_fetch ⟨some "T", none⟩ "T"
    (fun _ => .response 200 (Json.obj
      [("id", Json.num 5), ("name", Json.str "b"), ("displayName", Json.str "B")]))
    (Json.obj [("id", Json.num 5), ("name", Json.str "b"),
      ("displayName", Json.str "B")])
    ⟨5, "b", "B"⟩ rfl rfl rfl ⟨none, none⟩ (fun _ => .netError)
    1 none "k" [1] ["x"] true 2

/-- C10: serializing then deserializing any value of the three public model
    types is the identity — serde aliases accept both wire and public names
    on input while serialization emits the public names. -/
theorem public_models_roundtrip (f : FriendsUserInformation) (u : UserDetails)
    (w : UsernameUserDetails)
    (hf1 : f.user_id < 2 ^ 64)
    (hf2 : ∀ v, f.presence_type = some v → -(2 ^ 31) ≤ v ∧ v < 2 ^ 31)
    (hf3 : -(2 ^ 63) ≤ f.friend_frequent_score ∧ f.friend_frequent_score < 2 ^ 63)
    (hf4 : -(2 ^ 63) ≤ f.friend_frequent_rank ∧ f.friend_frequent_rank < 2 ^ 63)
    (hu : u.id < 2 ^ 64) (hw : w.id < 2 ^ 64) :
    decodeFriendsUserInformation (encodeFriendsUserInformation f) = some f
    ∧ decodeUserDetails (encodeUserDetails u) = some u
    ∧ decodeUsernameUserDetails (encodeUsernameUserDetails w) = some w :=
  ⟨decode_encode_friendsUserInformation f hf1 hf2 hf3 hf4,
   decode_encode_userDetails u hu,
   decode_encode_usernameUserDetails w hw⟩

/-- C10 witness at concrete values of the three model types. -/
theorem public_models_roundtrip_witness :
    decodeFriendsUserInformation (encodeFriendsUserInformation
        ⟨1, some "x", "a", "A", true, some 2, false, false, 5, -3, true, none,
         "2020-01-01T00:00:00Z"⟩)
      = some ⟨1, some "x", "a", "A", true, some 2, false, false, 5, -3, true,
          none, "2020-01-01T00:00:00Z"⟩
    ∧ decodeUserDetails (encodeUserDetails
        ⟨"a", "A", 7, "d", "2020-01-01T00:00:00Z", false, true⟩)
      = some ⟨"a", "A", 7, "d", "2020-01-01T00:00:00Z", false, true⟩
    ∧ decodeUsernameUserDetails (encodeUsernameUserDetails
        ⟨"r", "a", "A", 9, false⟩)
      = some ⟨"r", "a", "A", 9, false⟩ :=
  public_models_roundtrip
    ⟨1, some "x", "a", "A", true, some 2, false, false, 5, -3, true, none,
     "2020-01-01T00:00:00Z"⟩
    ⟨"a", "A", 7, "d", "2020-01-01T00:00:00Z", false, true⟩
    ⟨"r", "a", "A", 9, false⟩
    (by norm_num)
    (by intro v hv; injection hv with h2; subst h2; constructor <;> norm_num)
    (by constructor <;> norm_num)
    (by constructor <;> norm_num)
    (by norm_num) (by norm_num)

end Roboat
